import Mathlib

/-
Verification of the better-py monad library against its specification.

The embedding translates `src/better_py/monads/maybe.py` and
`src/better_py/monads/validation.py` into Lean definitions.  Python values of
type `T | None` are modelled as `Option α` (with `Option.none` standing for
Python's `None`), raised exceptions are modelled with `Except` over an explicit
error type, and Python's runtime dispatch on variants becomes pattern matching
on inductive types.  The State and Writer monads, together with the Result
type, are absent from `src/` (only their tests and callers are present); their
definitions below are modelled from the specification and say so in their doc
comments.
-/

namespace BetterPy

/-- Model of the Python exception classes raised by the source code
(`ValueError`, `AssertionError`, `IndexError`), together with the
`EmptyValueError` class named by the specification's error taxonomy.
Modelled from the spec: no `EmptyValueError` class exists anywhere in `src/`;
it is included here only so that statements about it can be written down. -/
inductive PyError where
  | valueError : String → PyError
  | assertionError : PyError
  | indexError : PyError
  | emptyValueError : PyError
deriving DecidableEq

/-- Embedding of the `Maybe` dataclass from `src/better_py/monads/maybe.py`:
a slot `_value : T | None` (here `Option α`, with `Option.none` standing for
Python's `None`) and a slot `_is_defined : bool` that is `false` exactly for
`Nothing`. -/
structure Maybe (α : Type) where
  _value : Option α
  _is_defined : Bool
deriving DecidableEq

/-- Embedding of `Maybe.some`: `return Maybe(value, True)`.  The Python
argument may itself be `None`, so the Lean argument ranges over `Option α`. -/
def Maybe.some (v : Option α) : Maybe α :=
  Maybe.mk v true

/-- Embedding of `Maybe.some_none`: `return Maybe(None, True)`. -/
def Maybe.some_none : Maybe α :=
  Maybe.mk Option.none true

/-- Embedding of `Maybe.nothing`: `return Maybe(None, False)`. -/
def Maybe.nothing : Maybe α :=
  Maybe.mk Option.none false

/-- Embedding of `Maybe.from_value`: `if value is None: return Maybe(None,
False)` and otherwise `return Maybe(value, True)`.  The `is None` test is the
pattern match on `Option`. -/
def Maybe.from_value : Option α → Maybe α
  | Option.none => Maybe.mk Option.none false
  | Option.some v => Maybe.mk (Option.some v) true

/-- Embedding of `Maybe.is_some`: `return self._is_defined`. -/
def Maybe.is_some (m : Maybe α) : Bool :=
  m._is_defined

/-- Embedding of `Maybe.is_nothing`: `return not self._is_defined`. -/
def Maybe.is_nothing (m : Maybe α) : Bool :=
  !m._is_defined

/-- Embedding of `Maybe.unwrap`: `if not self._is_defined: raise
ValueError("Cannot unwrap Nothing")` and otherwise `return self._value`. -/
def Maybe.unwrap (m : Maybe α) : Except PyError (Option α) :=
  if !m._is_defined then
    Except.error (PyError.valueError "Cannot unwrap Nothing")
  else
    Except.ok m._value

/-- Embedding of `Maybe.__eq__` (the hand-written one; the dataclass-generated
equality is suppressed because the class body already defines `__eq__`): both
Nothing gives `True`, a definedness mismatch gives `False`, and otherwise the
contained values are compared. -/
def Maybe.eq [DecidableEq α] (m other : Maybe α) : Bool :=
  if !m._is_defined && !other._is_defined then
    true
  else if m._is_defined != other._is_defined then
    false
  else
    m._value == other._value

/-- Embedding of `Maybe.ap`: `if not self._is_defined or not fn._is_defined:
return Maybe(None, False)`, then `assert fn._value is not None` (an
`AssertionError` when the contained function is `None`), then
`return Maybe(fn._value(self._value), True)`.  The contained Python function
receives a possibly-`None` argument and may return `None`, hence the type
`Option α → Option β`. -/
def Maybe.ap (m : Maybe α) (fn : Maybe (Option α → Option β)) :
    Except PyError (Maybe β) :=
  if !m._is_defined || !fn._is_defined then
    Except.ok (Maybe.mk Option.none false)
  else
    match fn._value with
    | Option.none => Except.error PyError.assertionError
    | Option.some f => Except.ok (Maybe.mk (f m._value) true)

/-- Embedding of the loop inside `Maybe.zip`: walk the arguments in order,
returning `Maybe(None, False)` at the first argument whose `_is_defined` is
false, and otherwise appending `m._value` to the result list. -/
def zipLoop : List (Maybe α) → List (Option α) → Maybe (List (Option α))
  | [], result => Maybe.mk (Option.some result) true
  | m :: ms, result =>
    if m._is_defined then
      zipLoop ms (result ++ [m._value])
    else
      Maybe.mk Option.none false

/-- Embedding of the static method `Maybe.zip`: starts the loop with the empty
result list; the Python tuple of collected values is modelled as a list. -/
def Maybe.zip (ms : List (Maybe α)) : Maybe (List (Option α)) :=
  zipLoop ms []

/-- Embedding of the `Validation` hierarchy from
`src/better_py/monads/validation.py`: the closed pair of dataclasses
`Valid(_value)` and `Invalid(_errors)` becomes a tagged union. -/
inductive Validation (E T : Type) where
  | Valid : T → Validation E T
  | Invalid : List E → Validation E T
deriving DecidableEq

/-- Embedding of the static factory `Validation.valid`: `return Valid(value)`. -/
def Validation.valid (v : T) : Validation E T :=
  Validation.Valid v

/-- Embedding of the static factory `Validation.invalid`: its Python argument
is `list[E] | E`, modelled as a sum; `if isinstance(errors, list): return
Invalid(errors)` and otherwise `return Invalid([errors])`. -/
def Validation.invalid : List E ⊕ E → Validation E T
  | Sum.inl es => Validation.Invalid es
  | Sum.inr e => Validation.Invalid [e]

/-- Embedding of `unwrap_errors`: `Valid` raises `ValueError("Cannot
unwrap_errors Valid")`, `Invalid` returns `self._errors`. -/
def Validation.unwrap_errors : Validation E T → Except PyError (List E)
  | Validation.Valid _ => Except.error (PyError.valueError "Cannot unwrap_errors Valid")
  | Validation.Invalid es => Except.ok es

/-- Embedding of `ap` as implemented by the two variants.  `Valid.ap(other)`:
if `other` is invalid, `Invalid(other.unwrap_errors())`, else
`Valid(self._value(other.unwrap()))`.  `Invalid.ap(other)`: if `other` is
invalid, `Invalid(self._errors + other.unwrap_errors())`, else
`Invalid(self._errors)`. -/
def Validation.ap :
    Validation E (α → β) → Validation E α → Validation E β
  | Validation.Valid f, Validation.Valid a => Validation.Valid (f a)
  | Validation.Valid _, Validation.Invalid es => Validation.Invalid es
  | Validation.Invalid es, Validation.Valid _ => Validation.Invalid es
  | Validation.Invalid es, Validation.Invalid es2 => Validation.Invalid (es ++ es2)

/-- Embedding of `flat_map` as implemented by the two variants.
`Valid.flat_map(f)`: `return f(self._value)`.  `Invalid.flat_map(f)`:
`return self` — the same error list, the function never applied. -/
def Validation.flat_map :
    Validation E α → (α → Validation E β) → Validation E β
  | Validation.Valid v, f => f v
  | Validation.Invalid es, _ => Validation.Invalid es

/-- Modelled from the spec: `result.py` is not under `src/` (only this
conversion calls it); per §4.2 `Result` is a tagged union with `ok` and
`error` construction. -/
inductive Result (T E : Type) where
  | ok : T → Result T E
  | error : E → Result T E
deriving DecidableEq

/-- Embedding of `to_result` as implemented by the two variants.
`Valid.to_result`: `return Result.ok(self._value)`.  `Invalid.to_result`:
`return Result.error(self._errors[0])` — Python indexing raises `IndexError`
on an empty list, hence the `Except`. -/
def Validation.to_result : Validation E T → Except PyError (Result T E)
  | Validation.Valid v => Except.ok (Result.ok v)
  | Validation.Invalid [] => Except.error PyError.indexError
  | Validation.Invalid (e :: _) => Except.ok (Result.error e)

/-- Modelled from the spec: `state.py` is not under `src/` (only its tests in
`src/tests/monads/test_state.py` are).  Per §4.5, `State` wraps a single pure
transition `S -> (T, S)` and `run(s0)` invokes it once. -/
structure State (σ α : Type) where
  run : σ → α × σ

/-- Modelled from the spec: `map(f)` runs the underlying transition once on
the input state, then applies `f` to the resulting value only, the state
passing through unchanged. -/
def State.map (m : State σ α) (f : α → β) : State σ β :=
  State.mk fun s =>
    let r := m.run s
    (f r.1, r.2)

/-- Modelled from the spec: `flat_map(f)` is the transition
`s -> let (v, s1) = T(s); f(v).run(s1)`. -/
def State.flat_map (m : State σ α) (f : α → State σ β) : State σ β :=
  State.mk fun s =>
    let r := m.run s
    (f r.1).run r.2

/-- Modelled from the spec: an instrumented variant of `State` whose `run`
additionally reports how many times the designated counting transitions were
invoked, making explicit the external side-effect counter used by the spec's
exactly-once property. -/
structure CState (σ α : Type) where
  run : σ → α × σ × Nat

/-- Modelled from the spec: `map` on the instrumented state, identical to
`State.map` with the invocation count passed through. -/
def CState.map (m : CState σ α) (f : α → β) : CState σ β :=
  CState.mk fun s =>
    let r := m.run s
    (f r.1, r.2.1, r.2.2)

/-- Modelled from the spec: `flat_map` on the instrumented state; the counts
of the base transition and of the transition returned by the continuation
add. -/
def CState.flat_map (m : CState σ α) (f : α → CState σ β) : CState σ β :=
  CState.mk fun s =>
    let r := m.run s
    let r2 := (f r.1).run r.2.1
    (r2.1, r2.2.1, r.2.2 + r2.2.2)

/-- Modelled from the spec: a side-effecting transition that increments the
external counter each time it runs — the instrumented image of `T` reporting
one invocation per run. -/
def countingOf (T : σ → α × σ) : CState σ α :=
  CState.mk fun s => ((T s).1, (T s).2, 1)

/-- Modelled from the spec: the instrumented image of a transition that does
not touch the external counter. -/
def plainOf (T : σ → α × σ) : CState σ α :=
  CState.mk fun s => ((T s).1, (T s).2, 0)

/-- A single `map` or `flat_map` layer wrapped around a state computation. -/
def Layer (σ α : Type) : Type :=
  (α → α) ⊕ (α → CState σ α)

/-- Apply one wrapping layer. -/
def applyLayer (m : CState σ α) : Layer σ α → CState σ α
  | Sum.inl f => m.map f
  | Sum.inr f => m.flat_map f

/-- Apply a chain of `map`/`flat_map` layers, innermost first. -/
def applyChain (m : CState σ α) (L : List (Layer σ α)) : CState σ α :=
  L.foldl applyLayer m

/-- Modelled from the spec: `writer.py` is not under `src/` (only its tests in
`src/tests/monads/test_writer.py` are).  Per §4.4, `Writer` pairs a log with a
payload value. -/
structure Writer (L α : Type) where
  log : L
  value : α
deriving DecidableEq

/-- Modelled from the spec: the explicit combine capability a log type may
expose — an associative binary operation plus an identity element (the
`Monoid` protocol of the tests). -/
structure CombineCap (L : Type) where
  combine : L → L → L
  identity : L

/-- Modelled from the spec: the two-tier resolution of the combine operation —
if the log type exposes an explicit combine capability, use it; otherwise fall
back to the log type's native concatenation/addition operator. -/
def resolveCombine (cap : Option (CombineCap L)) (plus : L → L → L) :
    L → L → L :=
  match cap with
  | Option.some c => c.combine
  | Option.none => plus

/-- Modelled from the spec: `flat_map(f)` on `Writer(l1, v1)` computes
`Writer(l2, v2) = f(v1)` and produces `Writer(combine(l1, l2), v2)`, with the
combine operation resolved by the two-tier rule. -/
def Writer.flat_map (cap : Option (CombineCap L)) (plus : L → L → L)
    (m : Writer L α) (f : α → Writer L β) : Writer L β :=
  let r := f m.value
  Writer.mk (resolveCombine cap plus m.log r.log) r.value

/-- C2: `ap` accumulates errors — `Invalid([e1]).ap(Invalid([e2]))` is
`Invalid([e1, e2])` with left errors before right, `Valid(g).ap(Invalid([e1]))`
is `Invalid([e1])`, and `Invalid([e1]).ap(Valid(a))` is `Invalid([e1])`; a
Valid operand contributes no errors. -/
theorem c2_validation_ap_accumulates (E α β : Type) (e1 e2 : E) (g : α → β) (a : α) :
    (Validation.Invalid [e1] : Validation E (α → β)).ap (Validation.Invalid [e2])
        = Validation.Invalid [e1, e2]
    ∧ (Validation.Valid g : Validation E (α → β)).ap (Validation.Invalid [e1])
        = Validation.Invalid [e1]
    ∧ (Validation.Invalid [e1] : Validation E (α → β)).ap (Validation.Valid a)
        = Validation.Invalid [e1] :=
  ⟨rfl, rfl, rfl⟩

/-- C4 counterexample: a zero-error `Invalid` is constructible through a
public construction path — the list branch of the `Validation.invalid`
factory applied to `[]` yields `Invalid([])`, which carries zero errors. -/
theorem c4_invalid_empty_constructible :
    (Validation.invalid (Sum.inl ([] : List Nat)) : Validation Nat Nat)
        = Validation.Invalid []
    ∧ (Validation.Invalid [] : Validation Nat Nat).unwrap_errors = Except.ok [] :=
  ⟨rfl, rfl⟩

/-- C4 amended: the scalar branch of the `Validation.invalid` factory wraps
its argument into a single-element list, so that path never produces an
`Invalid` with zero errors; the list branch passes its argument through
unchanged, so `Validation.invalid([])` does produce a zero-error `Invalid`. -/
theorem c4_scalar_factory_singleton (E T : Type) (e : E) (es : List E) :
    (Validation.invalid (Sum.inr e) : Validation E T) = Validation.Invalid [e]
    ∧ (Validation.invalid (Sum.inr e) : Validation E T).unwrap_errors = Except.ok [e]
    ∧ (Validation.invalid (Sum.inl es) : Validation E T) = Validation.Invalid es :=
  ⟨rfl, rfl, rfl⟩

/-- C5 counterexample: `unwrap` on Nothing does not raise the spec's
`EmptyValueError`; the source raises the plain `ValueError("Cannot unwrap
Nothing")`. -/
theorem c5_unwrap_not_empty_value_error :
    (Maybe.nothing : Maybe Nat).unwrap ≠ Except.error PyError.emptyValueError
    ∧ (Maybe.nothing : Maybe Nat).unwrap
        = Except.error (PyError.valueError "Cannot unwrap Nothing") := by
  constructor
  · intro h
    simp [Maybe.unwrap, Maybe.nothing] at h
  · rfl

/-- C5 amended: `unwrap` on Nothing raises `ValueError("Cannot unwrap
Nothing")` (there is no `EmptyValueError` class); on any Some — including
`Some(None)` — it returns the contained value without raising. -/
theorem c5_unwrap_raises_on_nothing (α : Type) (v : Option α) :
    (Maybe.nothing : Maybe α).unwrap
        = Except.error (PyError.valueError "Cannot unwrap Nothing")
    ∧ (Maybe.some v).unwrap = Except.ok v
    ∧ (Maybe.some_none : Maybe α).unwrap = Except.ok Option.none :=
  ⟨rfl, rfl, rfl⟩

/-- C6: `to_result` sends `Valid(v)` to `Ok(v)` and `Invalid(e :: rest)` to
`Err(e)`, carrying only the first accumulated error and discarding the rest. -/
theorem c6_to_result_keeps_first_error (E T : Type) (v : T) (e : E) (rest : List E) :
    (Validation.Valid v : Validation E T).to_result = Except.ok (Result.ok v)
    ∧ (Validation.Invalid (e :: rest) : Validation E T).to_result
        = Except.ok (Result.error e) :=
  ⟨rfl, rfl⟩

/-- C7: `from_value(None)` is Nothing and `from_value(v)` for non-None `v` is
`Some(v)`; `some(None)` and `some_none()` are Some values whose `is_some` is
true, whose `unwrap` returns None, which are unequal to `nothing()` under the
source's `__eq__`, and which are equal to each other. -/
theorem c7_some_none_distinct_from_nothing (α : Type) [DecidableEq α] (v : α) :
    Maybe.from_value (Option.none : Option α) = Maybe.nothing
    ∧ Maybe.from_value (Option.some v) = Maybe.some (Option.some v)
    ∧ (Maybe.some (Option.none : Option α)).is_some = true
    ∧ (Maybe.some_none : Maybe α).is_some = true
    ∧ (Maybe.some (Option.none : Option α)).unwrap = Except.ok Option.none
    ∧ (Maybe.some_none : Maybe α).unwrap = Except.ok Option.none
    ∧ Maybe.eq (Maybe.some_none : Maybe α) Maybe.nothing = false
    ∧ Maybe.eq (Maybe.nothing : Maybe α) Maybe.some_none = false
    ∧ Maybe.some (Option.none : Option α) = Maybe.some_none :=
  ⟨rfl, rfl, rfl, rfl, rfl, rfl, rfl, rfl, rfl⟩

/-- C7 witness: the statement instantiated at `α = Nat`, `v = 5`. -/
theorem c7_some_none_distinct_from_nothing_witness :
    Maybe.from_value (Option.none : Option Nat) = Maybe.nothing
    ∧ Maybe.from_value (Option.some 5) = Maybe.some (Option.some 5)
    ∧ (Maybe.some (Option.none : Option Nat)).is_some = true
    ∧ (Maybe.some_none : Maybe Nat).is_some = true
    ∧ (Maybe.some (Option.none : Option Nat)).unwrap = Except.ok Option.none
    ∧ (Maybe.some_none : Maybe Nat).unwrap = Except.ok Option.none
    ∧ Maybe.eq (Maybe.some_none : Maybe Nat) Maybe.nothing = false
    ∧ Maybe.eq (Maybe.nothing : Maybe Nat) Maybe.some_none = false
    ∧ Maybe.some (Option.none : Option Nat) = Maybe.some_none :=
  c7_some_none_distinct_from_nothing Nat 5

/-- C8: `flat_map` short-circuits — on any `Invalid` it returns the same
error list untouched for every function `f`, and on `Valid(v)` it returns
`f(v)`. -/
theorem c8_validation_flat_map_short_circuits (E α β : Type) (es : List E)
    (f : α → Validation E β) (v : α) :
    (Validation.Invalid es : Validation E α).flat_map f = Validation.Invalid es
    ∧ (Validation.Valid v : Validation E α).flat_map f = f v :=
  ⟨rfl, rfl⟩

/-- C10: for any Some `m`, applying `ap` with a function operand that is
`Some(None)` — as produced by `some_none()` or `some(None)` — hits the
internal assertion `fn._value is not None` and raises `AssertionError`
instead of returning a Maybe, although neither operand is Nothing. -/
theorem c10_ap_some_none_asserts (α β : Type) (m : Maybe α)
    (h : m._is_defined = true) :
    m.ap (Maybe.some_none : Maybe (Option α → Option β))
        = Except.error PyError.assertionError
    ∧ m.ap (Maybe.some (Option.none : Option (Option α → Option β)))
        = Except.error PyError.assertionError := by
  constructor
  · simp [Maybe.ap, Maybe.some_none, h]
  · simp [Maybe.ap, Maybe.some, h]

/-- C10 witness: the statement at `m = Maybe.some (Option.some 3)` over
`Nat`, whose `_is_defined` is true. -/
theorem c10_ap_some_none_asserts_witness :
    (Maybe.some (Option.some 3) : Maybe Nat)._is_defined = true
    ∧ ((Maybe.some (Option.some 3) : Maybe Nat).ap
          (Maybe.some_none : Maybe (Option Nat → Option Nat))
          = Except.error PyError.assertionError
       ∧ (Maybe.some (Option.some 3) : Maybe Nat).ap
          (Maybe.some (Option.none : Option (Option Nat → Option Nat)))
          = Except.error PyError.assertionError) :=
  ⟨rfl, c10_ap_some_none_asserts Nat Nat (Maybe.some (Option.some 3)) rfl⟩

/-- The zip loop over a prefix of all-defined arguments appends their values
to the accumulator in order. -/
theorem zipLoop_all_defined (ms : List (Maybe α))
    (h : ∀ x ∈ ms, x._is_defined = true) :
    ∀ acc, zipLoop ms acc = Maybe.mk (Option.some (acc ++ ms.map Maybe._value)) true := by
  induction ms with
  | nil =>
    intro acc
    simp [zipLoop]
  | cons m ms ih =>
    intro acc
    have hm : m._is_defined = true := h m (by simp)
    have hrest : ∀ x ∈ ms, x._is_defined = true := fun x hx => h x (by simp [hx])
    simp only [zipLoop, hm, if_true, ih hrest, List.map_cons]
    simp

/-- The zip loop returns Nothing as soon as it reaches the first undefined
argument, whatever arguments follow it. -/
theorem zipLoop_short_circuit (pre : List (Maybe α)) (m : Maybe α)
    (post : List (Maybe α)) (hpre : ∀ x ∈ pre, x._is_defined = true)
    (hm : m._is_defined = false) :
    ∀ acc, zipLoop (pre ++ m :: post) acc = Maybe.mk Option.none false := by
  induction pre with
  | nil =>
    intro acc
    simp [zipLoop, hm]
  | cons p ps ih =>
    intro acc
    have hp : p._is_defined = true := hpre p (by simp)
    have hrest : ∀ x ∈ ps, x._is_defined = true := fun x hx => hpre x (by simp [hx])
    simp only [List.cons_append, zipLoop, hp, if_true]
    exact ih hrest _

/-- C9: `zip` over all-Some arguments is Some of the contained values in
argument order, `zip` of no arguments is Some of the empty tuple, and `zip`
with a Nothing argument is Nothing, stopping at the first Nothing in argument
order regardless of what follows it. -/
theorem c9_zip_collects_or_nothing (α : Type) (ms pre post : List (Maybe α))
    (m : Maybe α) (hall : ∀ x ∈ ms, x._is_defined = true)
    (hpre : ∀ x ∈ pre, x._is_defined = true) (hm : m._is_defined = false) :
    Maybe.zip ms = Maybe.mk (Option.some (ms.map Maybe._value)) true
    ∧ Maybe.zip ([] : List (Maybe α)) = Maybe.mk (Option.some []) true
    ∧ Maybe.zip (pre ++ m :: post) = Maybe.nothing := by
  refine ⟨?_, rfl, ?_⟩
  · simpa [Maybe.zip] using zipLoop_all_defined ms hall []
  · simpa [Maybe.zip, Maybe.nothing] using zipLoop_short_circuit pre m post hpre hm []

/-- C9 witness: `zip [Some 1, Some 2]`, `zip []`, and
`zip [Some 1, Nothing, Some 3]` over `Nat`. -/
theorem c9_zip_collects_or_nothing_witness :
    Maybe.zip [Maybe.some (Option.some 1), Maybe.some (Option.some 2)]
        = Maybe.mk (Option.some (List.map Maybe._value
            [Maybe.some (Option.some 1), Maybe.some (Option.some 2)])) true
    ∧ Maybe.zip ([] : List (Maybe Nat)) = Maybe.mk (Option.some []) true
    ∧ Maybe.zip ([Maybe.some (Option.some 1)] ++ Maybe.nothing
        :: [Maybe.some (Option.some 3)]) = Maybe.nothing :=
  c9_zip_collects_or_nothing Nat
    [Maybe.some (Option.some 1), Maybe.some (Option.some 2)]
    [Maybe.some (Option.some 1)] [Maybe.some (Option.some 3)] Maybe.nothing
    (by decide) (by decide) rfl

/-- Any chain of `map`/`flat_map` layers whose `flat_map` continuations never
run the counting transition preserves a per-run invocation count of one. -/
theorem applyChain_count (σ α : Type) (L : List (Layer σ α))
    (hL : ∀ k, Sum.inr k ∈ L → ∀ v s2, ((k v).run s2).2.2 = 0) :
    ∀ m : CState σ α, (∀ s, (m.run s).2.2 = 1) →
      ∀ s, ((applyChain m L).run s).2.2 = 1 := by
  induction L with
  | nil =>
    intro m hm s
    exact hm s
  | cons l ls ih =>
    intro m hm s
    have hstep : ∀ s2, ((applyLayer m l).run s2).2.2 = 1 := by
      intro s2
      cases l with
      | inl f => simpa [applyLayer, CState.map] using hm s2
      | inr f =>
        have h0 := hL f (by simp) (m.run s2).1 (m.run s2).2.1
        simp [applyLayer, CState.flat_map, h0, hm s2]
    have hls : ∀ k, Sum.inr k ∈ ls → ∀ v s2, ((k v).run s2).2.2 = 0 :=
      fun k hk v s2 => hL k (by simp [hk]) v s2
    simpa [applyChain, List.foldl_cons] using ih hls (applyLayer m l) hstep s

/-- C1: `map(f)` on `State(T)` runs to `(f v, s1)` where `(v, s1) = T(s)`;
`flat_map(g)` runs to `g(v).run(s1)`; the counting base transition is invoked
exactly once per run through any chain of `map`/`flat_map` layers; and the
transition returned by a `flat_map` continuation is itself invoked exactly
once per run. -/
theorem c1_state_exactly_once (σ : Type) (T : σ → Int × σ) (f : Int → Int)
    (g : Int → State σ Int) (T1 : Int → σ → Int × σ) (s : σ)
    (L : List (Layer σ Int))
    (hL : ∀ k, Sum.inr k ∈ L → ∀ v s2, ((k v).run s2).2.2 = 0) :
    ((State.mk T).map f).run s = (f (T s).1, (T s).2)
    ∧ ((State.mk T).flat_map g).run s = (g (T s).1).run (T s).2
    ∧ ((applyChain (countingOf T) L).run s).2.2 = 1
    ∧ (((plainOf T).flat_map fun v => countingOf (T1 v)).run s).2.2 = 1 := by
  refine ⟨rfl, rfl, ?_, rfl⟩
  exact applyChain_count σ Int L hL (countingOf T) (fun s2 => rfl) s

/-- Concrete base transition used to instantiate the State theorem. -/
def stT : Int → Int × Int := fun s => (s, s + 1)

/-- Concrete map function used to instantiate the State theorem. -/
def stF : Int → Int := fun v => v + 1

/-- Concrete `flat_map` continuation used to instantiate the State theorem. -/
def stG : Int → State Int Int := fun v => State.mk fun s => (v + s, s)

/-- Concrete continuation transition family used to instantiate the State
theorem. -/
def stT1 : Int → Int → Int × Int := fun v s => (v + s, s)

/-- Concrete chain of one `map` layer and one `flat_map` layer whose
continuation does not touch the counter. -/
def stL : List (Layer Int Int) :=
  [Sum.inl (fun v => v + 1), Sum.inr (fun v => plainOf (fun s => (v, s)))]

/-- C1 witness: the statement instantiated at the concrete transition `stT`,
layers `stL` and start state `0`. -/
theorem c1_state_exactly_once_witness :
    ((State.mk stT).map stF).run 0 = (stF (stT 0).1, (stT 0).2)
    ∧ ((State.mk stT).flat_map stG).run 0 = (stG (stT 0).1).run (stT 0).2
    ∧ ((applyChain (countingOf stT) stL).run 0).2.2 = 1
    ∧ (((plainOf stT).flat_map fun v => countingOf (stT1 v)).run 0).2.2 = 1 :=
  c1_state_exactly_once Int stT stF stG stT1 0 stL (by
    intro k hk v s2
    simp only [stL, List.mem_cons, List.mem_singleton, reduceCtorEq,
      Sum.inr.injEq, false_or, List.not_mem_nil, or_false] at hk
    subst hk
    rfl)

/-- C3: `flat_map(f)` on `Writer(l1, v1)` with `f(v1) = Writer(l2, v2)` gives
`Writer(combine(l1, l2), v2)`, where combine resolves to the explicit combine
capability when the log type exposes one and to the native `+` operator
otherwise; a multiplicative capability turns logs 3 and 4 into 12, and list
logs concatenate to `[1, 2, 3, 4]`. -/
theorem c3_writer_flat_map_combines (L α β : Type) (cap : Option (CombineCap L))
    (plus : L → L → L) (c : CombineCap L) (l1 l2 : L) (v1 : α) (v2 : β)
    (f : α → Writer L β) (hf : f v1 = Writer.mk l2 v2) :
    Writer.flat_map cap plus (Writer.mk l1 v1) f
        = Writer.mk (resolveCombine cap plus l1 l2) v2
    ∧ resolveCombine (Option.some c) plus = c.combine
    ∧ resolveCombine Option.none plus = plus
    ∧ Writer.flat_map (Option.some (CombineCap.mk (fun a b => a * b) (1 : Int)))
        (fun a b => a + b) (Writer.mk 3 "a") (fun _ => Writer.mk 4 "b")
        = Writer.mk 12 "b"
    ∧ Writer.flat_map Option.none (fun a b : List Nat => a ++ b)
        (Writer.mk [1, 2] "a") (fun _ => Writer.mk [3, 4] "b")
        = Writer.mk [1, 2, 3, 4] "b" := by
  refine ⟨?_, rfl, rfl, rfl, rfl⟩
  simp [Writer.flat_map, hf]

/-- C3 witness: the statement instantiated at integer logs with the
multiplicative capability, `l1 = 3`, `f` constantly `Writer(4, "b")`. -/
theorem c3_writer_flat_map_combines_witness :
    Writer.flat_map (Option.some (CombineCap.mk (fun a b => a * b) (1 : Int)))
        (fun a b => a + b) (Writer.mk 3 "a") (fun _ : String => Writer.mk 4 "b")
        = Writer.mk (resolveCombine
            (Option.some (CombineCap.mk (fun a b => a * b) (1 : Int)))
            (fun a b => a + b) 3 4) "b"
    ∧ resolveCombine (Option.some (CombineCap.mk (fun a b => a * b) (1 : Int)))
        (fun a b => a + b) = (CombineCap.mk (fun a b => a * b) (1 : Int)).combine
    ∧ resolveCombine Option.none (fun a b : Int => a + b) = (fun a b => a + b)
    ∧ Writer.flat_map (Option.some (CombineCap.mk (fun a b => a * b) (1 : Int)))
        (fun a b => a + b) (Writer.mk 3 "a") (fun _ => Writer.mk 4 "b")
        = Writer.mk 12 "b"
    ∧ Writer.flat_map Option.none (fun a b : List Nat => a ++ b)
        (Writer.mk [1, 2] "a") (fun _ => Writer.mk [3, 4] "b")
        = Writer.mk [1, 2, 3, 4] "b" :=
  c3_writer_flat_map_combines Int String String
    (Option.some (CombineCap.mk (fun a b => a * b) 1)) (fun a b => a + b)
    (CombineCap.mk (fun a b => a * b) 1) 3 4 "a" "b"
    (fun _ => Writer.mk 4 "b") rfl

end BetterPy
